import Mathlib

/-!
Shallow embedding of the stream-resolution core of the movie web app
(`src/unnamed/part_000`): the retrying fetch wrapper, the series episode
tree fetch with its default targeting, the translator switch resolvers for
movies and series (the clamping state machine), and the stream details
fan-out.  Network transport, HTML/JSON parsing and the cache are external
collaborators in the source; they are abstracted as oracle inputs here.
`Option.none` models a thrown TypeError on an `undefined` dereference;
`Except.error` models a rejected promise.  `σ` stands for the parsed
stream payload type (`parseStream`'s output), whose contents none of the
embedded functions inspect.
-/

namespace MovieWeb

/-- The (season, episode) pair the UI wants to land on: the `state` argument
and the `stateTo` object of `fetchSeriesTranslator`, and the `streamFor`
value of `fetchSeriesEpisodesStream`. -/
structure WatchState where
  season : Nat
  episode : Nat
  deriving DecidableEq

/-- Episode node of a translator's season tree (type `ItemSeriesEpisodeStream`
of the source): number, title, and a stream slot that is `none` until fetched. -/
structure ItemSeriesEpisodeStream (σ : Type) where
  number : Nat
  title : String
  stream : Option σ
  deriving DecidableEq

/-- Season node of a translator's tree (type `ItemSeriesSeasonStream`):
number, title, and the provider-ordered episode list. -/
structure ItemSeriesSeasonStream (σ : Type) where
  number : Nat
  title : String
  episodes : List (ItemSeriesEpisodeStream σ)
  deriving DecidableEq

/-- Episode skeleton as produced by the external parser `parseStreamSeasons`
(no stream slot yet). -/
structure RawEpisode where
  number : Nat
  title : String
  deriving DecidableEq

/-- Season skeleton as produced by `parseStreamSeasons`. -/
structure RawSeason where
  number : Nat
  title : String
  episodes : List RawEpisode
  deriving DecidableEq

/-- Successful result of `fetchSeriesEpisodesStream` (lines 290-297 of
`part_000`): the parsed season tree, the stream that came with the response,
and the effective `streamFor` target. -/
structure SeriesEpisodesStreamResponse (σ : Type) where
  seasons : List RawSeason
  stream : σ
  streamFor : WatchState
  deriving DecidableEq

/-- JS `hint || dflt` on an optional number: both `undefined` and `0` are
falsy and select the default.  The default is itself an `Option` so that a
default whose computation dereferences `undefined` (e.g. `seasons[0].number`
on an empty list) propagates the crash; short-circuiting is preserved because
the default is only selected when the hint is falsy. -/
def jsOrNum (hint : Option Nat) (dflt : Option Nat) : Option Nat :=
  match hint with
  | some n => if n = 0 then dflt else some n
  | none => dflt

/-- Embedding of `fetchSeriesEpisodesStream` (lines 270-302), success path.
The network call and parsers are abstracted: `seasons` stands for
`parseStreamSeasons(data.seasons, data.episodes)` and `stream` for
`parseStream(data)`.  `season`/`episode` are the optional hints from the
arguments; the `streamFor` defaulting uses JS truthiness
(`season || seasons[0].number`, `episode || seasons[0].episodes[0].number`).
`none` models the TypeError thrown when a selected default dereferences
`undefined`. -/
def fetchSeriesEpisodesStream {σ : Type} (season episode : Option Nat)
    (seasons : List RawSeason) (stream : σ) :
    Option (SeriesEpisodesStreamResponse σ) :=
  match jsOrNum season (seasons.head?.map RawSeason.number) with
  | none => none
  | some s =>
    match jsOrNum episode
        ((seasons.head?.bind fun s0 => s0.episodes.head?).map RawEpisode.number) with
    | none => none
    | some e => some { seasons := seasons, stream := stream, streamFor := ⟨s, e⟩ }

/-- The tree materialization of lines 341-349 (and 110-118): map the raw
seasons to stream-slot trees, placing `stream` at the `streamFor` leaf and
`null` everywhere else. -/
def buildSeasonTree {σ : Type} (res : SeriesEpisodesStreamResponse σ) :
    List (ItemSeriesSeasonStream σ) :=
  res.seasons.map fun s =>
    { number := s.number
      title := s.title
      episodes := s.episodes.map fun e =>
        { number := e.number
          title := e.title
          stream :=
            if s.number = res.streamFor.season ∧ e.number = res.streamFor.episode
            then some res.stream else none } }

/-- The clamping steps of `fetchSeriesTranslator` (lines 352-371): locate the
requested season; if absent, reset to the first season and its first episode;
if present, locate the requested episode and, if absent, reset to that
season's first episode.  Returns the final `stateTo` together with the
`episode` node about to be dereferenced; `none` models the TypeError thrown
when `seasons[0]` or `season.episodes[0]` is `undefined`. -/
def clampState {σ : Type} (seasons : List (ItemSeriesSeasonStream σ))
    (state : WatchState) :
    Option (WatchState × ItemSeriesEpisodeStream σ) :=
  match seasons.find? (fun s => s.number == state.season) with
  | none =>
    match seasons with
    | [] => none
    | s0 :: _ =>
      match s0.episodes with
      | [] => none
      | e0 :: _ => some (⟨s0.number, e0.number⟩, e0)
  | some sn =>
    match sn.episodes.find? (fun e => e.number == state.episode) with
    | some e => some (state, e)
    | none =>
      match sn.episodes with
      | [] => none
      | e0 :: _ => some ({ state with episode := e0.number }, e0)

/-- Lines 331-351: the target translator's tree is either already known
(`seasonsKnown = some tree`, giving no `initial` report) or is fetched now via
`fetchSeriesEpisodesStream` with no season/episode hints and materialized by
`buildSeasonTree`, in which case it is also reported as `initial`. -/
def knownOrFetchedTree {σ : Type}
    (seasonsKnown : Option (List (ItemSeriesSeasonStream σ)))
    (rawSeasons : List RawSeason) (treeStream : σ) :
    Option (List (ItemSeriesSeasonStream σ) × Option (List (ItemSeriesSeasonStream σ))) :=
  match seasonsKnown with
  | some s => some (s, none)
  | none =>
    match fetchSeriesEpisodesStream none none rawSeasons treeStream with
    | none => none
    | some res => some (buildSeasonTree res, some (buildSeasonTree res))

/-- Result shape of `fetchSeriesTranslator` (minus the constant `type` tag):
the effective `stateTo`, the `initial` tree when one was just fetched, and
`next` holding the newly fetched leaf stream with its `streamFor` when the
effective leaf had no stream yet. -/
structure FetchSeriesTranslatorResponse (σ : Type) where
  stateTo : WatchState
  initial : Option (List (ItemSeriesSeasonStream σ))
  next : Option (σ × WatchState)
  deriving DecidableEq

/-- Embedding of `fetchSeriesTranslator` (lines 326-395), success path.
`seasonsKnown` is the `seasons` slot found for the target translator in
`item.streams` (the claims presuppose that entry exists); `rawSeasons` and
`treeStream` are the oracle outcome of the episode-tree fetch used when the
tree is unknown; `seriesFetch` is the oracle for `fetchSeriesStream` on the
(season, episode) it is called with.  The second component of the result
counts the `fetchSeriesStream` calls performed (0 or 1).  `none` models a
thrown TypeError (empty tree or empty episode list). -/
def fetchSeriesTranslator {σ : Type}
    (seasonsKnown : Option (List (ItemSeriesSeasonStream σ)))
    (state : WatchState) (rawSeasons : List RawSeason) (treeStream : σ)
    (seriesFetch : Nat → Nat → σ) :
    Option (FetchSeriesTranslatorResponse σ × Nat) :=
  match knownOrFetchedTree seasonsKnown rawSeasons treeStream with
  | none => none
  | some (seasons, initial) =>
    match clampState seasons state with
    | none => none
    | some (stateTo, episode) =>
      match episode.stream with
      | some _ => some ({ stateTo := stateTo, initial := initial, next := none }, 0)
      | none =>
        some ({ stateTo := stateTo, initial := initial
                next := some (seriesFetch stateTo.season stateTo.episode, stateTo) }, 1)

/-- The caller's view of a leaf: look the (season, episode) of `st` up in a
translator's tree exactly the way the resolver does (`find?` on numbers) and
return its stream slot. -/
def lookupLeaf {σ : Type} (seasons : List (ItemSeriesSeasonStream σ))
    (st : WatchState) : Option σ :=
  match seasons.find? (fun s => s.number == st.season) with
  | none => none
  | some sn =>
    match sn.episodes.find? (fun e => e.number == st.episode) with
    | none => none
    | some e => e.stream

/-- Per-translator movie stream slot (type `ItemMovieStream`). -/
structure ItemMovieStream (σ : Type) where
  translatorId : Nat
  stream : Option σ
  deriving DecidableEq

/-- A translator entry of `item.translators`: id plus the flags forwarded to
the movie stream endpoint. -/
structure Translator where
  id : Nat
  isCamrip : Bool
  isAds : Bool
  isDirector : Bool
  deriving DecidableEq

/-- Result shape of `fetchMovieTranslator` (minus the constant `type` tag):
the newly fetched stream, absent on the cache-hit path. -/
structure FetchMovieTranslatorResponse (σ : Type) where
  stream : Option σ
  deriving DecidableEq

/-- Embedding of `fetchMovieTranslator` (lines 304-324), success path.
`movieFetch` is the oracle for `fetchMovieStream` applied to the translator
whose flags are forwarded; the second result component counts the
`fetchMovieStream` calls (0 or 1).  `none` models the TypeError from the `!`
assertions when the translator is missing from `item.streams` or
`item.translators`. -/
def fetchMovieTranslator {σ : Type} (streams : List (ItemMovieStream σ))
    (translators : List Translator) (translatorId : Nat)
    (movieFetch : Translator → σ) :
    Option (FetchMovieTranslatorResponse σ × Nat) :=
  match streams.find? (fun s => s.translatorId == translatorId) with
  | none => none
  | some found =>
    match found.stream with
    | some _ => some ({ stream := none }, 0)
    | none =>
      match translators.find? (fun t => t.id == translatorId) with
      | none => none
      | some tr => some ({ stream := some (movieFetch tr) }, 1)

/-- The retry pattern shared by every exported fetch function of `part_000`:
`try { body } catch (err) { if (retry < 3) return f(args, retry + 1); throw err }`.
`attempts i` is the outcome of the (i+1)-th execution of the try-block body
(the body is re-run from scratch on each attempt, so outcomes may differ);
the result pairs the surfaced outcome with the number of body executions. -/
def retryGo {ε α : Type} (attempts : Nat → Except ε α) (retry i : Nat) :
    Except ε α × Nat :=
  match attempts i with
  | .ok a => (.ok a, i + 1)
  | .error e =>
    if _h : retry < 3 then retryGo attempts (retry + 1) (i + 1)
    else (.error e, i + 1)
  termination_by 3 - retry

/-- Embedding of `fetchSeriesStream` (lines 245-268) as its retry wrapper:
`body i` abstracts the whole try block (build params, POST to the AJAX
endpoint, reject on `success: false`, `parseStream`) on its (i+1)-th
execution.  A public call starts at `retry = 0`. -/
def fetchSeriesStream {ε σ : Type} (body : Nat → Except ε σ) :
    Except ε σ × Nat :=
  retryGo body 0 0

/-- `Promise.all` over the per-quality download-size fetches of
`fetchStreamDetails` (lines 205-207), identified by quality id: all-or-nothing,
surfacing the error of the first failing fetch in list order.  (In the source
the surfaced rejection among several simultaneous failures is timing
dependent; with at most one failing branch the two agree.) -/
def collectSizes {ε β : Type} (sizeOf : Nat → Except ε β) :
    List Nat → Except ε (List β)
  | [] => .ok []
  | q :: qs =>
    match sizeOf q with
    | .error e => .error e
    | .ok v =>
      match collectSizes sizeOf qs with
      | .error e => .error e
      | .ok vs => .ok (v :: vs)

/-- One execution of the `fetchStreamDetails` try block (lines 203-209):
join the thumbnail fetch and every per-quality size fetch; any failing branch
fails the join, and a full `(thumbnails, sizes)` value is produced only when
every branch succeeded.  `thumb` and `sizeOf` are the persistent outcomes of
the sub-fetches (each already wrapped in its own retry in the source, so a
persistently failing branch surfaces an error here). -/
def fetchStreamDetailsOnce {ε τ β : Type} (thumb : Except ε τ)
    (sizeOf : Nat → Except ε β) (qualities : List Nat) :
    Except ε (τ × List β) :=
  match collectSizes sizeOf qualities, thumb with
  | .ok sizes, .ok t => .ok (t, sizes)
  | .error e, _ => .error e
  | .ok _, .error e => .error e

/-- Embedding of `fetchStreamDetails` (lines 202-214): the fan-out join
wrapped in the standard retry.  Branch outcomes are persistent, so every
attempt observes the same join result. -/
def fetchStreamDetails {ε τ β : Type} (thumb : Except ε τ)
    (sizeOf : Nat → Except ε β) (qualities : List Nat) :
    Except ε (τ × List β) × Nat :=
  retryGo (fun _ => fetchStreamDetailsOnce thumb sizeOf qualities) 0 0

/-! ### Concrete fixtures used by witnesses and counterexamples -/

/-- First episode of the fixture season 3: stream already fetched (value 7). -/
def wEp1 : ItemSeriesEpisodeStream Nat := ⟨1, "E1", some 7⟩

/-- Second episode of the fixture season 3: no stream yet. -/
def wEp2 : ItemSeriesEpisodeStream Nat := ⟨2, "E2", none⟩

/-- Fixture season 3 with episodes 1 and 2. -/
def wSeason3 : ItemSeriesSeasonStream Nat := ⟨3, "S3", [wEp1, wEp2]⟩

/-- Fixture season 4 with the single episode 5, no stream yet. -/
def wSeason4 : ItemSeriesSeasonStream Nat := ⟨4, "S4", [⟨5, "E5", none⟩]⟩

/-- Fixture tree: seasons 3 and 4 in provider order. -/
def wTree : List (ItemSeriesSeasonStream Nat) := [wSeason3, wSeason4]

/-- Tree of the C8 scenario: seasons `[2, 3, 5]` in provider order, episodes
`[10, 11]` under season 2, and no stream fetched anywhere. -/
def c8Tree : List (ItemSeriesSeasonStream Nat) :=
  [⟨2, "S2", [⟨10, "E10", none⟩, ⟨11, "E11", none⟩]⟩,
   ⟨3, "S3", [⟨1, "E1", none⟩]⟩,
   ⟨5, "S5", [⟨1, "E1", none⟩]⟩]

/-- Raw fixture season 7 whose episodes are provider-ordered `[4, 2]` —
deliberately not numerically sorted. -/
def rawSeason7 : RawSeason := ⟨7, "S7", [⟨4, "E4"⟩, ⟨2, "E2"⟩]⟩

/-- Raw fixture season 5 with the single episode 1. -/
def rawSeason5 : RawSeason := ⟨5, "S5", [⟨1, "E1"⟩]⟩

/-- Raw fixture tree in provider order `[7, 5]` — deliberately not
numerically sorted. -/
def rawTree : List RawSeason := [rawSeason7, rawSeason5]

/-- Movie fixture: translator 1's slot already holds stream 5, translator 2's
slot is empty. -/
def mStreams : List (ItemMovieStream Nat) := [⟨1, some 5⟩, ⟨2, none⟩]

/-- Movie fixture translator list for ids 1 and 2. -/
def mTranslators : List Translator := [⟨1, false, false, false⟩, ⟨2, true, false, false⟩]

/-! ### Retry wrapper lemmas -/

/-- If the body fails on the first `k` executions and succeeds on the next,
and `k` retries are still allowed, `retryGo` returns the success with
`i + k + 1` total executions. -/
lemma retryGo_ok {ε α : Type} (attempts : Nat → Except ε α) :
    ∀ (k retry i : Nat) (a : α), retry + k ≤ 3 →
      (∀ j, j < k → ∃ e, attempts (i + j) = .error e) →
      attempts (i + k) = .ok a →
      retryGo attempts retry i = (.ok a, i + k + 1) := by
  intro k
  induction k with
  | zero =>
    intro retry i a _ _ hok
    rw [retryGo]
    simp only [Nat.add_zero] at hok
    rw [hok]
  | succ k ih =>
    intro retry i a hle herr hok
    obtain ⟨e, he⟩ := herr 0 (Nat.succ_pos k)
    rw [retryGo]
    simp only [Nat.add_zero] at he
    rw [he]
    dsimp only
    rw [dif_pos (by omega)]
    have herr2 : ∀ j, j < k → ∃ e, attempts (i + 1 + j) = .error e := by
      intro j hj
      have := herr (j + 1) (by omega)
      simpa [Nat.add_assoc, Nat.add_comm 1 j] using this
    have hok2 : attempts (i + 1 + k) = .ok a := by
      have : i + 1 + k = i + (k + 1) := by omega
      rw [this]; exact hok
    have := ih (retry + 1) (i + 1) a (by omega) herr2 hok2
    rw [this]
    congr 1
    omega

/-- If the body fails on every execution `i, i+1, ..., i+k` where `k` is the
number of retries still allowed, `retryGo` surfaces the last error after
`i + k + 1` total executions. -/
lemma retryGo_error {ε α : Type} (attempts : Nat → Except ε α) (f : Nat → ε) :
    ∀ (k retry i : Nat), retry + k = 3 →
      (∀ j, j ≤ k → attempts (i + j) = .error (f (i + j))) →
      retryGo attempts retry i = (.error (f (i + k)), i + k + 1) := by
  intro k
  induction k with
  | zero =>
    intro retry i h3 herr
    have h0 := herr 0 (Nat.le_refl 0)
    simp only [Nat.add_zero] at h0 ⊢
    rw [retryGo, h0]
    dsimp only
    rw [dif_neg (by omega)]
  | succ k ih =>
    intro retry i h3 herr
    have h0 := herr 0 (by omega)
    simp only [Nat.add_zero] at h0
    rw [retryGo, h0]
    dsimp only
    rw [dif_pos (by omega)]
    have herr2 : ∀ j, j ≤ k → attempts (i + 1 + j) = .error (f (i + 1 + j)) := by
      intro j hj
      have := herr (j + 1) (by omega)
      have hshift : i + (j + 1) = i + 1 + j := by omega
      rw [hshift] at this
      exact this
    have := ih (retry + 1) (i + 1) (by omega) herr2
    rw [this]
    have hshift : i + 1 + k = i + (k + 1) := by omega
    rw [hshift]

/-- C3: bounded retry semantics of the wrapped fetch operations, stated on
`fetchSeriesStream`'s wrapper: a body failing on exactly `k ≤ 3` leading
executions then succeeding yields the success value after exactly `k + 1`
executions; a body failing on 4 consecutive executions surfaces the 4th
error unchanged after exactly 4 executions. -/
theorem fetchSeriesStream_retry_bound {ε σ : Type} (body : Nat → Except ε σ) :
    (∀ k a, k ≤ 3 → (∀ i, i < k → ∃ e, body i = .error e) → body k = .ok a →
       fetchSeriesStream body = (.ok a, k + 1)) ∧
    (∀ f : Nat → ε, (∀ i, i < 4 → body i = .error (f i)) →
       fetchSeriesStream body = (.error (f 3), 4)) := by
  constructor
  · intro k a hk herr hok
    have := retryGo_ok body k 0 0 a (by omega)
      (by intro j hj; simpa using herr j hj) (by simpa using hok)
    simpa [fetchSeriesStream] using this
  · intro f hf
    have := retryGo_error body f 3 0 0 (by omega)
      (by intro j hj; simpa using hf j (by omega))
    simpa [fetchSeriesStream] using this

/-- Witness for C3: a body that fails twice then returns 99 is retried to
success with 3 executions, and a body that always fails with the execution
index surfaces error 3 after 4 executions. -/
theorem fetchSeriesStream_retry_bound_witness :
    (2 ≤ 3 ∧ (fun i => if i < 2 then (Except.error i : Except Nat Nat) else .ok 99) 2 = .ok 99 ∧
      fetchSeriesStream (fun i => if i < 2 then (Except.error i : Except Nat Nat) else .ok 99) =
        (.ok 99, 3)) ∧
    fetchSeriesStream (fun i => (Except.error i : Except Nat Nat)) = (.error 3, 4) := by
  constructor
  · refine ⟨by omega, by simp, ?_⟩
    exact (fetchSeriesStream_retry_bound
      (fun i => if i < 2 then (Except.error i : Except Nat Nat) else .ok 99)).1 2 99
      (by omega) (fun i hi => ⟨i, by simp [hi]⟩) (by simp)
  · exact (fetchSeriesStream_retry_bound (fun i => (Except.error i : Except Nat Nat))).2
      (fun i => i) (fun i _ => rfl)

/-! ### Clamping lemmas -/

/-- Requested season absent: clamp to the first season and its first episode. -/
lemma clampState_season_missing {σ : Type} (state : WatchState)
    (s0 : ItemSeriesSeasonStream σ) (rest : List (ItemSeriesSeasonStream σ))
    (e0 : ItemSeriesEpisodeStream σ) (etl : List (ItemSeriesEpisodeStream σ))
    (hfind : (s0 :: rest).find? (fun s => s.number == state.season) = none)
    (h0 : s0.episodes = e0 :: etl) :
    clampState (s0 :: rest) state = some (⟨s0.number, e0.number⟩, e0) := by
  simp [clampState, hfind, h0]

/-- Requested season and episode both present: the state is unchanged. -/
lemma clampState_both_found {σ : Type} (state : WatchState)
    (seasons : List (ItemSeriesSeasonStream σ)) (sn : ItemSeriesSeasonStream σ)
    (ee : ItemSeriesEpisodeStream σ)
    (hfind : seasons.find? (fun s => s.number == state.season) = some sn)
    (hef : sn.episodes.find? (fun e => e.number == state.episode) = some ee) :
    clampState seasons state = some (state, ee) := by
  simp [clampState, hfind, hef]

/-- Requested season present but episode absent: clamp to that season's first
episode, keeping the season. -/
lemma clampState_episode_missing {σ : Type} (state : WatchState)
    (seasons : List (ItemSeriesSeasonStream σ)) (sn : ItemSeriesSeasonStream σ)
    (e0 : ItemSeriesEpisodeStream σ) (etl : List (ItemSeriesEpisodeStream σ))
    (hfind : seasons.find? (fun s => s.number == state.season) = some sn)
    (hef : sn.episodes.find? (fun e => e.number == state.episode) = none)
    (hep : sn.episodes = e0 :: etl) :
    clampState seasons state = some ({ state with episode := e0.number }, e0) := by
  rw [hep] at hef
  simp [clampState, hfind, hef, hep]

/-- Cache-hit run of the series translator switch: when the clamped leaf
already holds a stream, no `fetchSeriesStream` call happens and `next` is
absent. -/
lemma fetchSeriesTranslator_hit {σ : Type}
    (seasonsKnown : Option (List (ItemSeriesSeasonStream σ)))
    (state : WatchState) (rawSeasons : List RawSeason) (treeStream : σ)
    (seriesFetch : Nat → Nat → σ)
    (tree : List (ItemSeriesSeasonStream σ))
    (ini : Option (List (ItemSeriesSeasonStream σ)))
    (st : WatchState) (ep : ItemSeriesEpisodeStream σ) (x : σ)
    (hT : knownOrFetchedTree seasonsKnown rawSeasons treeStream = some (tree, ini))
    (hc : clampState tree state = some (st, ep))
    (hs : ep.stream = some x) :
    fetchSeriesTranslator seasonsKnown state rawSeasons treeStream seriesFetch =
      some ({ stateTo := st, initial := ini, next := none }, 0) := by
  simp [fetchSeriesTranslator, hT, hc, hs]

/-- Cache-miss run of the series translator switch: when the clamped leaf has
no stream, exactly one `fetchSeriesStream` call happens, targeting the clamped
state, and its result is reported in `next`. -/
lemma fetchSeriesTranslator_miss {σ : Type}
    (seasonsKnown : Option (List (ItemSeriesSeasonStream σ)))
    (state : WatchState) (rawSeasons : List RawSeason) (treeStream : σ)
    (seriesFetch : Nat → Nat → σ)
    (tree : List (ItemSeriesSeasonStream σ))
    (ini : Option (List (ItemSeriesSeasonStream σ)))
    (st : WatchState) (ep : ItemSeriesEpisodeStream σ)
    (hT : knownOrFetchedTree seasonsKnown rawSeasons treeStream = some (tree, ini))
    (hc : clampState tree state = some (st, ep))
    (hs : ep.stream = none) :
    fetchSeriesTranslator seasonsKnown state rawSeasons treeStream seriesFetch =
      some ({ stateTo := st, initial := ini
              next := some (seriesFetch st.season st.episode, st) }, 1) := by
  simp [fetchSeriesTranslator, hT, hc, hs]

/-! ### Claims about the series translator switch -/

/-- C1: clamping correctness of the series translator switch.  For a tree
(already known or just fetched) with at least one season, every season
holding at least one episode: if the requested season is absent the effective
state is the first season and its first episode; if the season is present but
the episode absent, the effective state keeps the requested season and takes
that season's first episode; if both are present the effective state equals
the requested state. -/
theorem seriesTranslator_clamping_correct {σ : Type}
    (seasonsKnown : Option (List (ItemSeriesSeasonStream σ)))
    (state : WatchState) (rawSeasons : List RawSeason) (treeStream : σ)
    (seriesFetch : Nat → Nat → σ)
    (s0 : ItemSeriesSeasonStream σ) (rest : List (ItemSeriesSeasonStream σ))
    (ini : Option (List (ItemSeriesSeasonStream σ)))
    (e00 : ItemSeriesEpisodeStream σ) (es0 : List (ItemSeriesEpisodeStream σ))
    (hT : knownOrFetchedTree seasonsKnown rawSeasons treeStream = some (s0 :: rest, ini))
    (h0 : s0.episodes = e00 :: es0)
    (hall : ∀ s ∈ s0 :: rest, s.episodes ≠ []) :
    ∃ r n, fetchSeriesTranslator seasonsKnown state rawSeasons treeStream seriesFetch =
        some (r, n) ∧
      ((s0 :: rest).find? (fun s => s.number == state.season) = none →
         r.stateTo = ⟨s0.number, e00.number⟩) ∧
      (∀ sn, (s0 :: rest).find? (fun s => s.number == state.season) = some sn →
         (∀ ee, sn.episodes.find? (fun e => e.number == state.episode) = some ee →
            r.stateTo = state) ∧
         (sn.episodes.find? (fun e => e.number == state.episode) = none →
            ∀ ef etl, sn.episodes = ef :: etl →
              r.stateTo = ⟨state.season, ef.number⟩)) := by
  obtain ⟨ss, se⟩ := state
  cases hfind : (s0 :: rest).find? (fun s => s.number == WatchState.season ⟨ss, se⟩) with
  | none =>
    have hc := clampState_season_missing ⟨ss, se⟩ s0 rest e00 es0 hfind h0
    cases hstream : e00.stream with
    | some x =>
      exact ⟨_, _, fetchSeriesTranslator_hit _ _ _ _ _ _ _ _ _ _ hT hc hstream,
        fun _ => rfl, fun sn hsn => by simp at hsn⟩
    | none =>
      exact ⟨_, _, fetchSeriesTranslator_miss _ _ _ _ _ _ _ _ _ hT hc hstream,
        fun _ => rfl, fun sn hsn => by simp at hsn⟩
  | some sn =>
    cases hef : sn.episodes.find? (fun e => e.number == WatchState.episode ⟨ss, se⟩) with
    | some ee =>
      have hc := clampState_both_found ⟨ss, se⟩ (s0 :: rest) sn ee hfind hef
      have hrest : ∀ (r : FetchSeriesTranslatorResponse σ), r.stateTo = ⟨ss, se⟩ →
          (some sn = none → r.stateTo = ⟨s0.number, e00.number⟩) ∧
          (∀ sn', some sn = some sn' →
            (∀ ee', sn'.episodes.find? (fun e => e.number == se) = some ee' →
               r.stateTo = ⟨ss, se⟩) ∧
            (sn'.episodes.find? (fun e => e.number == se) = none →
               ∀ ef etl, sn'.episodes = ef :: etl → r.stateTo = ⟨ss, ef.number⟩)) := by
        intro r hr
        refine ⟨fun h => by simp at h, fun sn' hsn' => ?_⟩
        obtain rfl : sn = sn' := by injection hsn'
        refine ⟨fun ee' _ => hr, fun hnone => ?_⟩
        rw [hef] at hnone
        simp at hnone
      cases hstream : ee.stream with
      | some x =>
        exact ⟨_, _, fetchSeriesTranslator_hit _ _ _ _ _ _ _ _ _ _ hT hc hstream,
          hrest _ rfl⟩
      | none =>
        exact ⟨_, _, fetchSeriesTranslator_miss _ _ _ _ _ _ _ _ _ hT hc hstream,
          hrest _ rfl⟩
    | none =>
      have hsnmem : sn ∈ s0 :: rest := List.mem_of_find?_eq_some hfind
      obtain ⟨ef, etl, hep⟩ := List.exists_cons_of_ne_nil (hall sn hsnmem)
      have hc := clampState_episode_missing ⟨ss, se⟩ (s0 :: rest) sn ef etl hfind hef hep
      have hrest : ∀ (r : FetchSeriesTranslatorResponse σ), r.stateTo = ⟨ss, ef.number⟩ →
          (some sn = none → r.stateTo = ⟨s0.number, e00.number⟩) ∧
          (∀ sn', some sn = some sn' →
            (∀ ee', sn'.episodes.find? (fun e => e.number == se) = some ee' →
               r.stateTo = ⟨ss, se⟩) ∧
            (sn'.episodes.find? (fun e => e.number == se) = none →
               ∀ ef' etl', sn'.episodes = ef' :: etl' → r.stateTo = ⟨ss, ef'.number⟩)) := by
        intro r hr
        refine ⟨fun h => by simp at h, fun sn' hsn' => ?_⟩
        obtain rfl : sn = sn' := by injection hsn'
        refine ⟨fun ee' hee' => ?_, fun _ ef' etl' hep' => ?_⟩
        · rw [hef] at hee'
          simp at hee'
        · rw [hep] at hep'
          obtain ⟨rfl, rfl⟩ : ef = ef' ∧ etl = etl' := by
            constructor <;> injection hep'
          exact hr
      cases hstream : ef.stream with
      | some x =>
        exact ⟨_, _, fetchSeriesTranslator_hit _ _ _ _ _ _ _ _ _ _ hT hc hstream,
          hrest _ rfl⟩
      | none =>
        exact ⟨_, _, fetchSeriesTranslator_miss _ _ _ _ _ _ _ _ _ hT hc hstream,
          hrest _ rfl⟩

/-- Witness for C1: on the fixture tree, requesting the nonexistent season 9
exercises the clamping theorem at a concrete input. -/
theorem seriesTranslator_clamping_correct_witness :
    knownOrFetchedTree (some wTree) [] 0 = some (wSeason3 :: [wSeason4], none) ∧
    wSeason3.episodes = wEp1 :: [wEp2] ∧
    (∀ s ∈ wSeason3 :: [wSeason4], s.episodes ≠ []) ∧
    ∃ r n,
      fetchSeriesTranslator (some wTree) ⟨9, 9⟩ [] 0 (fun s e => 100 * s + e) =
        some (r, n) ∧
      ((wSeason3 :: [wSeason4]).find? (fun s => s.number == 9) = none →
         r.stateTo = ⟨wSeason3.number, wEp1.number⟩) ∧
      (∀ sn, (wSeason3 :: [wSeason4]).find? (fun s => s.number == 9) = some sn →
         (∀ ee, sn.episodes.find? (fun e => e.number == 9) = some ee →
            r.stateTo = ⟨9, 9⟩) ∧
         (sn.episodes.find? (fun e => e.number == 9) = none →
            ∀ ef etl, sn.episodes = ef :: etl →
              r.stateTo = ⟨9, ef.number⟩)) :=
  ⟨rfl, rfl, by decide,
    seriesTranslator_clamping_correct (some wTree) ⟨9, 9⟩ [] 0 (fun s e => 100 * s + e)
      wSeason3 [wSeason4] none wEp1 [wEp2] rfl rfl (by decide)⟩

/-- C2: after the clamping steps, `stateTo` always names an existing leaf of
the tree, and the run reaches the leaf dereference without failing (the
result is `some`). -/
theorem seriesTranslator_clamped_leaf_exists {σ : Type}
    (seasonsKnown : Option (List (ItemSeriesSeasonStream σ)))
    (state : WatchState) (rawSeasons : List RawSeason) (treeStream : σ)
    (seriesFetch : Nat → Nat → σ)
    (s0 : ItemSeriesSeasonStream σ) (rest : List (ItemSeriesSeasonStream σ))
    (ini : Option (List (ItemSeriesSeasonStream σ)))
    (e00 : ItemSeriesEpisodeStream σ) (es0 : List (ItemSeriesEpisodeStream σ))
    (hT : knownOrFetchedTree seasonsKnown rawSeasons treeStream = some (s0 :: rest, ini))
    (h0 : s0.episodes = e00 :: es0)
    (hall : ∀ s ∈ s0 :: rest, s.episodes ≠ []) :
    ∃ r n, fetchSeriesTranslator seasonsKnown state rawSeasons treeStream seriesFetch =
        some (r, n) ∧
      ∃ s, s ∈ s0 :: rest ∧ s.number = r.stateTo.season ∧
        ∃ e, e ∈ s.episodes ∧ e.number = r.stateTo.episode := by
  obtain ⟨ss, se⟩ := state
  cases hfind : (s0 :: rest).find? (fun s => s.number == WatchState.season ⟨ss, se⟩) with
  | none =>
    have hc := clampState_season_missing ⟨ss, se⟩ s0 rest e00 es0 hfind h0
    have hleaf : ∀ (r : FetchSeriesTranslatorResponse σ),
        r.stateTo = ⟨s0.number, e00.number⟩ →
        ∃ s, s ∈ s0 :: rest ∧ s.number = r.stateTo.season ∧
          ∃ e, e ∈ s.episodes ∧ e.number = r.stateTo.episode := by
      intro r hr
      exact ⟨s0, List.mem_cons_self _ _, by simp [hr],
        e00, by rw [h0]; exact List.mem_cons_self _ _, by simp [hr]⟩
    cases hstream : e00.stream with
    | some x =>
      exact ⟨_, _, fetchSeriesTranslator_hit _ _ _ _ _ _ _ _ _ _ hT hc hstream, hleaf _ rfl⟩
    | none =>
      exact ⟨_, _, fetchSeriesTranslator_miss _ _ _ _ _ _ _ _ _ hT hc hstream, hleaf _ rfl⟩
  | some sn =>
    have hsnmem : sn ∈ s0 :: rest := List.mem_of_find?_eq_some hfind
    have hsnum : sn.number = ss := by simpa using List.find?_some hfind
    cases hef : sn.episodes.find? (fun e => e.number == WatchState.episode ⟨ss, se⟩) with
    | some ee =>
      have heemem : ee ∈ sn.episodes := List.mem_of_find?_eq_some hef
      have heenum : ee.number = se := by simpa using List.find?_some hef
      have hc := clampState_both_found ⟨ss, se⟩ (s0 :: rest) sn ee hfind hef
      have hleaf : ∀ (r : FetchSeriesTranslatorResponse σ), r.stateTo = ⟨ss, se⟩ →
          ∃ s, s ∈ s0 :: rest ∧ s.number = r.stateTo.season ∧
            ∃ e, e ∈ s.episodes ∧ e.number = r.stateTo.episode := by
        intro r hr
        exact ⟨sn, hsnmem, by simp [hr, hsnum], ee, heemem, by simp [hr, heenum]⟩
      cases hstream : ee.stream with
      | some x =>
        exact ⟨_, _, fetchSeriesTranslator_hit _ _ _ _ _ _ _ _ _ _ hT hc hstream, hleaf _ rfl⟩
      | none =>
        exact ⟨_, _, fetchSeriesTranslator_miss _ _ _ _ _ _ _ _ _ hT hc hstream, hleaf _ rfl⟩
    | none =>
      obtain ⟨ef, etl, hep⟩ := List.exists_cons_of_ne_nil (hall sn hsnmem)
      have hc := clampState_episode_missing ⟨ss, se⟩ (s0 :: rest) sn ef etl hfind hef hep
      have hleaf : ∀ (r : FetchSeriesTranslatorResponse σ), r.stateTo = ⟨ss, ef.number⟩ →
          ∃ s, s ∈ s0 :: rest ∧ s.number = r.stateTo.season ∧
            ∃ e, e ∈ s.episodes ∧ e.number = r.stateTo.episode := by
        intro r hr
        exact ⟨sn, hsnmem, by simp [hr, hsnum],
          ef, by rw [hep]; exact List.mem_cons_self _ _, by simp [hr]⟩
      cases hstream : ef.stream with
      | some x =>
        exact ⟨_, _, fetchSeriesTranslator_hit _ _ _ _ _ _ _ _ _ _ hT hc hstream, hleaf _ rfl⟩
      | none =>
        exact ⟨_, _, fetchSeriesTranslator_miss _ _ _ _ _ _ _ _ _ hT hc hstream, hleaf _ rfl⟩

/-- Witness for C2: requesting season 4, episode 7 on the fixture tree lands
on an existing leaf (episode 7 is clamped to season 4's first episode). -/
theorem seriesTranslator_clamped_leaf_exists_witness :
    knownOrFetchedTree (some wTree) [] 0 = some (wSeason3 :: [wSeason4], none) ∧
    wSeason3.episodes = wEp1 :: [wEp2] ∧
    (∀ s ∈ wSeason3 :: [wSeason4], s.episodes ≠ []) ∧
    ∃ r n,
      fetchSeriesTranslator (some wTree) ⟨4, 7⟩ [] 0 (fun s e => 100 * s + e) =
        some (r, n) ∧
      ∃ s, s ∈ wSeason3 :: [wSeason4] ∧ s.number = r.stateTo.season ∧
        ∃ e, e ∈ s.episodes ∧ e.number = r.stateTo.episode :=
  ⟨rfl, rfl, by decide,
    seriesTranslator_clamped_leaf_exists (some wTree) ⟨4, 7⟩ [] 0 (fun s e => 100 * s + e)
      wSeason3 [wSeason4] none wEp1 [wEp2] rfl rfl (by decide)⟩

/-- C4: leaf reuse performs no fetch and reports no new leaf.  Whenever the
effective (clamped) leaf already holds a stream, the switch performs zero
`fetchSeriesStream` calls and the result's `next` field is absent, carrying
only the effective state. -/
theorem seriesTranslator_leaf_reuse_no_fetch {σ : Type}
    (seasonsKnown : Option (List (ItemSeriesSeasonStream σ)))
    (state : WatchState) (rawSeasons : List RawSeason) (treeStream : σ)
    (seriesFetch : Nat → Nat → σ)
    (tree : List (ItemSeriesSeasonStream σ))
    (ini : Option (List (ItemSeriesSeasonStream σ)))
    (st : WatchState) (ep : ItemSeriesEpisodeStream σ) (x : σ)
    (hT : knownOrFetchedTree seasonsKnown rawSeasons treeStream = some (tree, ini))
    (hc : clampState tree state = some (st, ep))
    (hx : ep.stream = some x) :
    ∃ r, fetchSeriesTranslator seasonsKnown state rawSeasons treeStream seriesFetch =
        some (r, 0) ∧ r.next = none ∧ r.stateTo = st :=
  ⟨_, fetchSeriesTranslator_hit _ _ _ _ _ _ _ _ _ _ hT hc hx, rfl, rfl⟩

/-- Witness for C4: on the fixture tree, switching to (3, 1) — whose leaf
already has stream 7 — performs zero stream fetches and reports no `next`. -/
theorem seriesTranslator_leaf_reuse_no_fetch_witness :
    knownOrFetchedTree (some wTree) [] 0 = some (wTree, none) ∧
    clampState wTree ⟨3, 1⟩ = some (⟨3, 1⟩, wEp1) ∧
    wEp1.stream = some 7 ∧
    ∃ r, fetchSeriesTranslator (some wTree) ⟨3, 1⟩ [] 0 (fun s e => 100 * s + e) =
        some (r, 0) ∧ r.next = none ∧ r.stateTo = ⟨3, 1⟩ :=
  ⟨rfl, rfl, rfl,
    seriesTranslator_leaf_reuse_no_fetch (some wTree) ⟨3, 1⟩ [] 0 (fun s e => 100 * s + e)
      wTree none ⟨3, 1⟩ wEp1 7 rfl rfl rfl⟩

/-- C5: leaf reuse returns the existing stream.  Switching to a (season,
episode) whose leaf already holds a stream performs zero new stream fetches,
reports neither a new tree nor a new leaf, keeps the requested state, and the
caller's lookup of that state in the (unchanged) tree still yields the
existing stream. -/
theorem seriesTranslator_leaf_reuse_stream {σ : Type}
    (tree : List (ItemSeriesSeasonStream σ)) (state : WatchState)
    (rawSeasons : List RawSeason) (treeStream : σ) (seriesFetch : Nat → Nat → σ)
    (sn : ItemSeriesSeasonStream σ) (ee : ItemSeriesEpisodeStream σ) (stm : σ)
    (hfind : tree.find? (fun s => s.number == state.season) = some sn)
    (hef : sn.episodes.find? (fun e => e.number == state.episode) = some ee)
    (hx : ee.stream = some stm) :
    ∃ r, fetchSeriesTranslator (some tree) state rawSeasons treeStream seriesFetch =
        some (r, 0) ∧
      r.next = none ∧ r.initial = none ∧ r.stateTo = state ∧
      lookupLeaf tree r.stateTo = some stm := by
  have hc := clampState_both_found state tree sn ee hfind hef
  have hT : knownOrFetchedTree (some tree) rawSeasons treeStream = some (tree, none) := rfl
  refine ⟨_, fetchSeriesTranslator_hit _ _ _ _ _ _ _ _ _ _ hT hc hx, rfl, rfl, rfl, ?_⟩
  simp [lookupLeaf, hfind, hef, hx]

/-- Witness for C5: switching to (3, 1) on the fixture tree returns the
existing stream 7 through the unchanged tree. -/
theorem seriesTranslator_leaf_reuse_stream_witness :
    wTree.find? (fun s => s.number == 3) = some wSeason3 ∧
    wSeason3.episodes.find? (fun e => e.number == 1) = some wEp1 ∧
    wEp1.stream = some 7 ∧
    ∃ r, fetchSeriesTranslator (some wTree) ⟨3, 1⟩ [] 0 (fun s e => 100 * s + e) =
        some (r, 0) ∧
      r.next = none ∧ r.initial = none ∧ r.stateTo = ⟨3, 1⟩ ∧
      lookupLeaf wTree r.stateTo = some 7 :=
  ⟨rfl, rfl, rfl,
    seriesTranslator_leaf_reuse_stream wTree ⟨3, 1⟩ [] 0 (fun s e => 100 * s + e)
      wSeason3 wEp1 7 rfl rfl rfl⟩

/-- Counterexample to C8 as stated: on the already-fetched tree with seasons
`[2, 3, 5]` (episodes `[10, 11]` under season 2, no stream anywhere),
requesting season 99 clamps to (2, 10) but DOES perform one upstream stream
fetch for the clamped leaf (its slot was empty), reporting it in `next` —
the run is not fetch-free. -/
theorem seriesTranslator_clamp_fetches_cex :
    fetchSeriesTranslator (some c8Tree) ⟨99, 1⟩ [] 0 (fun s e => 100 * s + e) =
      some ({ stateTo := ⟨2, 10⟩, initial := none, next := some (210, ⟨2, 10⟩) }, 1) ∧
    ∀ r, fetchSeriesTranslator (some c8Tree) ⟨99, 1⟩ [] 0 (fun s e => 100 * s + e) ≠
      some (r, 0) := by
  have h : fetchSeriesTranslator (some c8Tree) ⟨99, 1⟩ [] 0 (fun s e => 100 * s + e) =
      some ({ stateTo := ⟨2, 10⟩, initial := none, next := some (210, ⟨2, 10⟩) }, 1) := rfl
  refine ⟨h, fun r hr => ?_⟩
  rw [h] at hr
  simp at hr

/-- C8 (amended): clamping happens before the leaf lookup, and the fetch
decision is made on the clamped leaf.  On an already-fetched tree where the
requested season is absent, the resolver returns the clamped effective state
(first season, its first episode); it performs zero stream fetches exactly
when that clamped leaf already holds a stream, and any fetch it performs
targets the clamped leaf — never the requested season. -/
theorem seriesTranslator_clamp_before_leaf {σ : Type}
    (state : WatchState) (rawSeasons : List RawSeason) (treeStream : σ)
    (seriesFetch : Nat → Nat → σ)
    (s0 : ItemSeriesSeasonStream σ) (rest : List (ItemSeriesSeasonStream σ))
    (e0 : ItemSeriesEpisodeStream σ) (etl : List (ItemSeriesEpisodeStream σ))
    (h0 : s0.episodes = e0 :: etl)
    (hfind : (s0 :: rest).find? (fun s => s.number == state.season) = none) :
    ∃ r n,
      fetchSeriesTranslator (some (s0 :: rest)) state rawSeasons treeStream seriesFetch =
        some (r, n) ∧
      r.stateTo = ⟨s0.number, e0.number⟩ ∧
      (∀ x, e0.stream = some x → n = 0 ∧ r.next = none) ∧
      (e0.stream = none → n = 1 ∧
        r.next = some (seriesFetch s0.number e0.number, ⟨s0.number, e0.number⟩)) := by
  have hc := clampState_season_missing state s0 rest e0 etl hfind h0
  have hT : knownOrFetchedTree (some (s0 :: rest)) rawSeasons treeStream =
      some (s0 :: rest, none) := rfl
  cases hstream : e0.stream with
  | some x =>
    refine ⟨_, _, fetchSeriesTranslator_hit _ _ _ _ _ _ _ _ _ _ hT hc hstream,
      rfl, fun _ _ => ⟨rfl, rfl⟩, fun h => ?_⟩
    simp at h
  | none =>
    refine ⟨_, _, fetchSeriesTranslator_miss _ _ _ _ _ _ _ _ _ hT hc hstream,
      rfl, fun x hx => ?_, fun _ => ⟨rfl, rfl⟩⟩
    simp at hx

/-- Witness for the amended C8: the counterexample scenario itself — season
99 requested on the `[2, 3, 5]` tree clamps to (2, 10) and the single fetch
targets (2, 10). -/
theorem seriesTranslator_clamp_before_leaf_witness :
    (⟨2, "S2", [⟨10, "E10", none⟩, ⟨11, "E11", none⟩]⟩ :
        ItemSeriesSeasonStream Nat).episodes =
      ⟨10, "E10", none⟩ :: [⟨11, "E11", none⟩] ∧
    c8Tree.find? (fun s => s.number == 99) = none ∧
    ∃ r n,
      fetchSeriesTranslator (some c8Tree) ⟨99, 1⟩ [] 0 (fun s e => 100 * s + e) =
        some (r, n) ∧
      r.stateTo = ⟨2, 10⟩ ∧
      (∀ x, (⟨10, "E10", (none : Option Nat)⟩ : ItemSeriesEpisodeStream Nat).stream = some x →
        n = 0 ∧ r.next = none) ∧
      ((⟨10, "E10", (none : Option Nat)⟩ : ItemSeriesEpisodeStream Nat).stream = none →
        n = 1 ∧ r.next = some ((fun s e => 100 * s + e) 2 10, ⟨2, 10⟩)) :=
  ⟨rfl, rfl,
    seriesTranslator_clamp_before_leaf ⟨99, 1⟩ [] 0 (fun s e => 100 * s + e)
      ⟨2, "S2", [⟨10, "E10", none⟩, ⟨11, "E11", none⟩]⟩
      [⟨3, "S3", [⟨1, "E1", none⟩]⟩, ⟨5, "S5", [⟨1, "E1", none⟩]⟩]
      ⟨10, "E10", none⟩ [⟨11, "E11", none⟩] rfl rfl⟩

/-- C6: movie switch terminal case.  With the target translator present in
the item's streams: a non-null slot returns immediately with zero fetches and
no new content; an empty slot triggers exactly one movie stream fetch for
that translator, returned as the new slot content. -/
theorem movieTranslator_terminal {σ : Type}
    (streams : List (ItemMovieStream σ)) (translators : List Translator)
    (translatorId : Nat) (movieFetch : Translator → σ)
    (found : ItemMovieStream σ)
    (hfound : streams.find? (fun s => s.translatorId == translatorId) = some found) :
    (∀ x, found.stream = some x →
       fetchMovieTranslator streams translators translatorId movieFetch =
         some ({ stream := none }, 0)) ∧
    (found.stream = none → ∀ tr,
       translators.find? (fun t => t.id == translatorId) = some tr →
       fetchMovieTranslator streams translators translatorId movieFetch =
         some ({ stream := some (movieFetch tr) }, 1)) := by
  constructor
  · intro x hx
    simp [fetchMovieTranslator, hfound, hx]
  · intro hn tr htr
    simp [fetchMovieTranslator, hfound, hn, htr]

/-- Witness for C6: translator 1 (slot filled) switches with zero fetches;
translator 2 (slot empty) fetches once and returns the new stream. -/
theorem movieTranslator_terminal_witness :
    mStreams.find? (fun s => s.translatorId == 1) = some ⟨1, some 5⟩ ∧
    fetchMovieTranslator mStreams mTranslators 1 (fun t => 10 * t.id) =
      some ({ stream := none }, 0) ∧
    mStreams.find? (fun s => s.translatorId == 2) = some ⟨2, none⟩ ∧
    fetchMovieTranslator mStreams mTranslators 2 (fun t => 10 * t.id) =
      some ({ stream := some 20 }, 1) := by
  refine ⟨rfl, ?_, rfl, ?_⟩
  · exact (movieTranslator_terminal mStreams mTranslators 1 (fun t => 10 * t.id)
      ⟨1, some 5⟩ rfl).1 5 rfl
  · exact (movieTranslator_terminal mStreams mTranslators 2 (fun t => 10 * t.id)
      ⟨2, none⟩ rfl).2 rfl ⟨2, true, false, false⟩ rfl

/-- C7: default targeting of the episode-tree fetch.  With no season/episode
hints and a tree whose first season has at least one episode, `streamFor`
is the first season's number paired with its first episode's number, in
provider-reported order. -/
theorem episodesStream_default_targeting {σ : Type} (stm : σ)
    (s0 : RawSeason) (rest : List RawSeason) (e0 : RawEpisode) (etl : List RawEpisode)
    (h0 : s0.episodes = e0 :: etl) :
    fetchSeriesEpisodesStream none none (s0 :: rest) stm =
      some { seasons := s0 :: rest, stream := stm
             streamFor := ⟨s0.number, e0.number⟩ } := by
  simp [fetchSeriesEpisodesStream, jsOrNum, h0]

/-- Witness for C7: on the unsorted raw tree `[7, 5]` with episodes `[4, 2]`
under season 7, the default target is (7, 4) — provider order, not the
numeric minimum. -/
theorem episodesStream_default_targeting_witness :
    rawSeason7.episodes = ⟨4, "E4"⟩ :: [⟨2, "E2"⟩] ∧
    fetchSeriesEpisodesStream none none rawTree (0 : Nat) =
      some { seasons := rawTree, stream := 0, streamFor := ⟨7, 4⟩ } :=
  ⟨rfl, episodesStream_default_targeting 0 rawSeason7 [rawSeason5]
    ⟨4, "E4"⟩ [⟨2, "E2"⟩] rfl⟩

/-- C10: implicit mixed-hint defaulting.  With a non-zero season hint `s` and
a missing (or 0, hence falsy) episode hint, `streamFor` pairs `s` with the
number of the FIRST season's first episode — not the first episode of the
requested season `s`. -/
theorem episodesStream_mixed_hint {σ : Type} (stm : σ) (s : Nat) (hs : s ≠ 0)
    (episode : Option Nat) (hhint : episode = none ∨ episode = some 0)
    (s0 : RawSeason) (rest : List RawSeason) (e0 : RawEpisode) (etl : List RawEpisode)
    (h0 : s0.episodes = e0 :: etl) :
    fetchSeriesEpisodesStream (some s) episode (s0 :: rest) stm =
      some { seasons := s0 :: rest, stream := stm, streamFor := ⟨s, e0.number⟩ } := by
  rcases hhint with h | h <;> subst h <;> simp [fetchSeriesEpisodesStream, jsOrNum, hs, h0]

/-- Witness for C10: requesting season 5 with no episode hint on the raw
fixture tree yields (5, 4): episode 4 is the first episode of the first
season (season 7), not an episode of season 5. -/
theorem episodesStream_mixed_hint_witness :
    (5 : Nat) ≠ 0 ∧
    ((none : Option Nat) = none ∨ (none : Option Nat) = some 0) ∧
    rawSeason7.episodes = ⟨4, "E4"⟩ :: [⟨2, "E2"⟩] ∧
    fetchSeriesEpisodesStream (some 5) none rawTree (0 : Nat) =
      some { seasons := rawTree, stream := 0, streamFor := ⟨5, 4⟩ } :=
  ⟨by decide, Or.inl rfl, rfl,
    episodesStream_mixed_hint 0 5 (by decide) none (Or.inl rfl) rawSeason7 [rawSeason5]
      ⟨4, "E4"⟩ [⟨2, "E2"⟩] rfl⟩

/-! ### Fan-out join lemmas -/

/-- If every size fetch before `qi` succeeds and `qi`'s fails, the join of the
size fetches surfaces `qi`'s error. -/
lemma collectSizes_error_at {ε β : Type} (sizeOf : Nat → Except ε β) (qi : Nat) (e : ε) :
    ∀ (pre post : List Nat), (∀ q ∈ pre, ∃ v, sizeOf q = .ok v) →
      sizeOf qi = .error e →
      collectSizes sizeOf (pre ++ qi :: post) = .error e := by
  intro pre
  induction pre with
  | nil =>
    intro post _ hq
    simp [collectSizes, hq]
  | cons p ps ih =>
    intro post hok hq
    obtain ⟨v, hv⟩ := hok p (List.mem_cons_self _ _)
    have htail := ih post (fun q hqmem => hok q (List.mem_cons_of_mem _ hqmem)) hq
    simp [collectSizes, hv, htail]

/-- If every size fetch succeeds, the join succeeds. -/
lemma collectSizes_ok_of_forall {ε β : Type} (sizeOf : Nat → Except ε β) :
    ∀ qs : List Nat, (∀ q ∈ qs, ∃ v, sizeOf q = .ok v) →
      ∃ vs, collectSizes sizeOf qs = .ok vs := by
  intro qs
  induction qs with
  | nil => exact fun _ => ⟨[], rfl⟩
  | cons p ps ih =>
    intro hok
    obtain ⟨v, hv⟩ := hok p (List.mem_cons_self _ _)
    obtain ⟨vs, hvs⟩ := ih (fun q hqmem => hok q (List.mem_cons_of_mem _ hqmem))
    exact ⟨v :: vs, by simp [collectSizes, hv, hvs]⟩

/-- If the join succeeds, every size fetch succeeded. -/
lemma collectSizes_forall_of_ok {ε β : Type} (sizeOf : Nat → Except ε β) :
    ∀ (qs : List Nat) (vs : List β), collectSizes sizeOf qs = .ok vs →
      ∀ q ∈ qs, ∃ v, sizeOf q = .ok v := by
  intro qs
  induction qs with
  | nil => intro vs _ q hq; simp at hq
  | cons p ps ih =>
    intro vs hvs q hq
    cases hp : sizeOf p with
    | error e => rw [collectSizes, hp] at hvs; cases hvs
    | ok v =>
      rw [collectSizes, hp] at hvs
      cases hps : collectSizes sizeOf ps with
      | error e => rw [hps] at hvs; cases hvs
      | ok ws =>
        rcases List.mem_cons.1 hq with rfl | hq2
        · exact ⟨v, hp⟩
        · exact ih ws hps q hq2

/-- A body whose every attempt fails with `e` surfaces `e` after 4 attempts. -/
lemma retryGo_const_error {ε α : Type} (e : ε) :
    retryGo (fun _ => (.error e : Except ε α)) 0 0 = (.error e, 4) := by
  have h := retryGo_error (fun _ => (.error e : Except ε α)) (fun _ => e) 3 0 0 rfl
    (fun j _ => rfl)
  simpa using h

/-- A body whose first attempt succeeds returns after exactly 1 attempt. -/
lemma retryGo_const_ok {ε α : Type} (a : α) :
    retryGo (fun _ => (.ok a : Except ε α)) 0 0 = (.ok a, 1) := by
  rw [retryGo]

/-- C9: fan-out atomicity of `fetchStreamDetails`.  If any single branch
persistently fails — one quality's size fetch (the others and the thumbnail
succeeding) or the thumbnail fetch (all sizes succeeding) — the whole
operation surfaces that branch's error (after its 4 wrapper attempts) and
produces no result value; a full `(thumbnails, sizes)` result implies every
branch succeeded. -/
theorem fetchStreamDetails_atomic {ε τ β : Type} (thumb : Except ε τ)
    (sizeOf : Nat → Except ε β) (qs : List Nat) :
    (∀ t pre qi post e, thumb = .ok t → qs = pre ++ qi :: post →
       sizeOf qi = .error e → (∀ q ∈ pre ++ post, ∃ v, sizeOf q = .ok v) →
       fetchStreamDetails thumb sizeOf qs = (.error e, 4)) ∧
    (∀ e, thumb = .error e → (∀ q ∈ qs, ∃ v, sizeOf q = .ok v) →
       fetchStreamDetails thumb sizeOf qs = (.error e, 4)) ∧
    (∀ t sizes n, fetchStreamDetails thumb sizeOf qs = (.ok (t, sizes), n) →
       thumb = .ok t ∧ ∀ q ∈ qs, ∃ v, sizeOf q = .ok v) := by
  refine ⟨?_, ?_, ?_⟩
  · intro t pre qi post e hth hqs hqi hok
    subst hqs
    subst hth
    have hcs := collectSizes_error_at sizeOf qi e pre post
      (fun q hq => hok q (List.mem_append_left _ hq)) hqi
    have honce : fetchStreamDetailsOnce (.ok t) sizeOf (pre ++ qi :: post) = .error e := by
      simp [fetchStreamDetailsOnce, hcs]
    rw [fetchStreamDetails]
    simp only [honce]
    exact retryGo_const_error e
  · intro e hth hall
    subst hth
    obtain ⟨vs, hvs⟩ := collectSizes_ok_of_forall sizeOf qs hall
    have honce : fetchStreamDetailsOnce (Except.error e : Except ε τ) sizeOf qs =
        .error e := by
      simp [fetchStreamDetailsOnce, hvs]
    rw [fetchStreamDetails]
    simp only [honce]
    exact retryGo_const_error e
  · intro t sizes n h
    rw [fetchStreamDetails] at h
    cases honce : fetchStreamDetailsOnce thumb sizeOf qs with
    | error e =>
      simp only [honce] at h
      rw [retryGo_const_error e] at h
      simp at h
    | ok x =>
      simp only [honce] at h
      rw [retryGo_const_ok x] at h
      have hx : x = (t, sizes) := by
        have hfst := congrArg Prod.fst h
        simpa using hfst
      subst hx
      cases hcs : collectSizes sizeOf qs with
      | error e => simp [fetchStreamDetailsOnce, hcs] at honce
      | ok vs =>
        cases hth : thumb with
        | error e => simp [fetchStreamDetailsOnce, hcs, hth] at honce
        | ok t' =>
          simp [fetchStreamDetailsOnce, hcs, hth] at honce
          obtain ⟨h1, h2⟩ := honce
          subst h1
          subst h2
          exact ⟨rfl, collectSizes_forall_of_ok sizeOf qs _ hcs⟩

/-- Witness for C9: thumbnail succeeds with 0, quality 1's size fetch
succeeds, quality 2's persistently fails with error 77 — the whole operation
surfaces error 77 after 4 attempts, returning no partial result. -/
theorem fetchStreamDetails_atomic_witness :
    ((fun q => if q = 2 then (Except.error 77 : Except Nat Nat) else .ok q) 2 =
      .error 77) ∧
    ([1, 2] : List Nat) = [1] ++ 2 :: [] ∧
    fetchStreamDetails (.ok 0 : Except Nat Nat)
        (fun q => if q = 2 then .error 77 else .ok q) [1, 2] = (.error 77, 4) := by
  refine ⟨by norm_num, by simp, ?_⟩
  refine (fetchStreamDetails_atomic (.ok 0)
    (fun q => if q = 2 then .error 77 else .ok q) [1, 2]).1 0 [1] 2 [] 77 rfl rfl
    (by norm_num) ?_
  intro q hq
  simp at hq
  subst hq
  exact ⟨1, by norm_num⟩

end MovieWeb
